import Mathlib

/-!
Verification of the Grelien Web-platform irrigation backend.

This file gives a shallow embedding, in Lean 4, of the state and the
operations of the Node.js backend (src/backend/server.js,
src/backend/irrigation-patch.js, src/backend/models/Schedule.model.js,
src/backend/models/IrrigationHistory.model.js) and proves or refutes the
spec claims about them.

Conventions of the embedding:
- machine timestamps (JavaScript `Date.now()` milliseconds) are `Nat` or
  `Int`; every function that reads the clock takes `now` explicitly;
- JavaScript numbers that carry fractional values are `Rat`;
- the side effects of the server (MQTT publishes, SSE broadcasts, file
  writes) are recorded in explicit lists inside the state so that claims
  about "what was emitted" are statements about those lists;
- `JSON.parse` and `parseFloat` are JavaScript builtins; they are modelled
  below by executable Lean functions that capture the behaviour the
  handlers rely on (numeric-prefix parsing, status-field extraction).
-/

/-- JavaScript `Math.round`: rounds half toward positive infinity. -/
def jsMathRound (q : ℚ) : ℤ := ⌊q + 1 / 2⌋

/-- Consume a run of decimal digits, returning the accumulated value, the
number of digits consumed, and the rest of the characters. -/
def parseDigitsAux : List Char → Nat → Nat → Nat × Nat × List Char
  | [], acc, n => (acc, n, [])
  | c :: cs, acc, n =>
    if c.isDigit then parseDigitsAux cs (acc * 10 + (c.toNat - 48)) (n + 1)
    else (acc, n, c :: cs)

/-- Model of the JavaScript builtin `parseFloat`: skips leading whitespace,
reads an optional sign, an integer part and an optional fractional part,
ignores any trailing garbage, and yields `none` for NaN (no numeric
prefix at all). Exponent notation and Infinity are not modelled; no claim
depends on them. -/
def jsParseFloat (s : String) : Option ℚ :=
  let cs := s.data.dropWhile (fun c => c == ' ' || c == '\t' || c == '\n' || c == '\r')
  let signAndRest : ℚ × List Char :=
    match cs with
    | '-' :: r => (-1, r)
    | '+' :: r => (1, r)
    | _ => (1, cs)
  let sign := signAndRest.1
  let afterInt := parseDigitsAux signAndRest.2 0 0
  let ip := afterInt.1
  let nInt := afterInt.2.1
  match afterInt.2.2 with
  | '.' :: r =>
    let afterFrac := parseDigitsAux r 0 0
    let fp := afterFrac.1
    let nFrac := afterFrac.2.1
    if nInt = 0 ∧ nFrac = 0 then none
    else some (sign * ((ip : ℚ) + (fp : ℚ) / (10 : ℚ) ^ nFrac))
  | _ => if nInt = 0 then none else some (sign * (ip : ℚ))

/-- Scan a character list for the first occurrence of `key` and return the
characters after it. Helper for the JSON status-field extraction. -/
def dropAfterKey (key : List Char) : List Char → Option (List Char)
  | [] => none
  | c :: cs =>
    if key.isPrefixOf (c :: cs) then some ((c :: cs).drop key.length)
    else dropAfterKey key cs

/-- Model of reading `JSON.parse(payload).status` for the device-status
handler: extracts the string value of a "status" key. `none` models the
case where `JSON.parse` throws (or no status field is present). -/
def parseStatusField (payload : String) : Option String :=
  match dropAfterKey "\"status\":\"".data payload.data with
  | some rest => some (String.mk (rest.takeWhile (fun c => c ≠ '"')))
  | none => none

section MongoModels

/-- One document of the MongoDB IrrigationHistory collection, restricted to
the fields the retention rule reads (models/IrrigationHistory.model.js):
the Mongo `_id` and the `createdAt` timestamp. -/
structure HistoryDoc where
  docId : Nat
  createdAt : Nat
deriving DecidableEq, Repr

/-- Insert a document into a list that is sorted by ascending `createdAt`,
keeping it sorted. -/
def insertByCreatedAt (e : HistoryDoc) : List HistoryDoc → List HistoryDoc
  | [] => [e]
  | x :: xs =>
    if x.createdAt ≤ e.createdAt then x :: insertByCreatedAt e xs
    else e :: x :: xs

/-- Sort a document list by ascending `createdAt` (models the query
`find().sort(\x7bcreatedAt: 1\x7d)` of `cleanOldRecords`). -/
def sortByCreatedAtAsc : List HistoryDoc → List HistoryDoc
  | [] => []
  | x :: xs => insertByCreatedAt x (sortByCreatedAtAsc xs)

/-- `IrrigationHistory.cleanOldRecords` (models/IrrigationHistory.model.js
lines 145-165): if the collection holds more than `keepCount` documents,
select the `total - keepCount` documents with the earliest `createdAt`
(sort ascending, limit) and delete them by id. Returns the remaining
collection and the deleted count. The collection is represented as the
list of documents in newest-first read order. -/
def cleanOldRecords (keepCount : Nat) (db : List HistoryDoc) : List HistoryDoc × Nat :=
  let total := db.length
  if total ≤ keepCount then (db, 0)
  else
    let toDelete := total - keepCount
    let oldIds := ((sortByCreatedAtAsc db).take toDelete).map (fun e => e.docId)
    (db.filter (fun e => ! oldIds.contains e.docId), toDelete)

/-- One document of the IrrigationHistory collection restricted to the
fields the `calculatedDuration` virtual reads: the optional recorded
`duration` (minutes) and the optional `startTime` and `endTime`
timestamps (milliseconds). -/
structure IrrigationHistoryDoc where
  duration : Option Int
  startTime : Option Int
  endTime : Option Int
deriving DecidableEq, Repr

/-- JavaScript truthiness of an optional number: absent, or zero, is falsy. -/
def jsTruthyInt : Option Int → Bool
  | none => false
  | some v => v ≠ 0

/-- The `calculatedDuration` virtual (models/IrrigationHistory.model.js
lines 85-91): return `duration` when truthy, else when both `startTime`
and `endTime` are present return `Math.round((endTime - startTime) /
(1000 * 60))` minutes, else 0. -/
def calculatedDuration (d : IrrigationHistoryDoc) : Int :=
  if jsTruthyInt d.duration then d.duration.getD 0
  else
    match d.startTime, d.endTime with
    | some s, some e => jsMathRound (((e - s : Int) : ℚ) / (1000 * 60))
    | _, _ => 0

/-- A JavaScript Date value abstracted to the two projections the schedule
methods read: the "HH:MM" clock string and the `toDateString()` calendar
day string. -/
structure JsInstant where
  hhmm : String
  dateString : String
deriving DecidableEq, Repr

/-- One document of the Schedule collection (models/Schedule.model.js),
restricted to the fields `shouldExecute` and `markExecuted` read. -/
structure MongoSchedule where
  time : String
  action : String
  duration : Nat
  frequency : String
  date : Option String
  active : Bool
  lastExecuted : Option JsInstant
deriving DecidableEq, Repr

/-- `schedule.shouldExecute` (models/Schedule.model.js lines 87-114).
`toDS` models `d => new Date(d).toDateString()` for the stored weekly
`date` string; `now` carries the current clock and day. A weekly schedule
with no stored date is modelled as never matching (in JavaScript the
Invalid Date day string never equals a real day). -/
def shouldExecute (toDS : String → String) (sched : MongoSchedule) (now : JsInstant) : Bool :=
  if sched.time ≠ now.hhmm ∨ sched.active = false then false
  else if sched.frequency = "daily" then
    match sched.lastExecuted with
    | some le => if le.dateString = now.dateString then false else true
    | none => true
  else if sched.frequency = "weekly" then
    match sched.date with
    | some ds =>
      if toDS ds = now.dateString ∧ sched.lastExecuted = none then true else false
    | none => false
  else false

/-- `schedule.markExecuted` (models/Schedule.model.js lines 117-126): stamp
`lastExecuted` with the current time and deactivate weekly schedules. -/
def markExecuted (sched : MongoSchedule) (now : JsInstant) : MongoSchedule :=
  { sched with
    lastExecuted := some now
    active := if sched.frequency = "weekly" then false else sched.active }

end MongoModels

section ServerState

/-- `systemState.sensorData` (server.js lines 36-40). -/
structure SensorData where
  temperature : ℚ
  humidity : ℚ
  lastUpdated : Nat
deriving DecidableEq, Repr

/-- One entry of `systemState.logs` (server.js `addLog`). -/
structure LogEntry where
  time : Nat
  message : String
deriving DecidableEq, Repr

/-- One in-memory schedule record as built by `POST /api/schedules`
(server.js lines 697-704). -/
structure ServerSchedule where
  id : Nat
  time : String
  action : String
  duration : Nat
  active : Bool
deriving DecidableEq, Repr

/-- The mutable server state `systemState` (server.js lines 33-46) plus
explicit journals of the side effects the claims talk about:
`published` records every message handed to `mqttClient.publish`,
`broadcasts` records the `type` of every SSE broadcast, and
`savedSnapshots` records one entry per `fs.writeFileSync` flush performed
by `saveSchedules`. `scheduleTimers` holds the ids of the schedules that
currently have a cron task (`activeScheduleTimers`). -/
structure SystemState where
  mqttConnected : Bool
  motorState : Bool
  sensorData : SensorData
  schedules : List ServerSchedule
  logs : List LogEntry
  lastSensorDataTime : Option Nat
  deviceActive : Bool
  published : List (String × String)
  broadcasts : List String
  savedSnapshots : List (List ServerSchedule)
  scheduleTimers : List Nat
deriving DecidableEq, Repr

/-- `addLog` (server.js lines 327-340): prepend the entry and keep only the
last 100 entries. -/
def addLog (now : Nat) (message : String) (s : SystemState) : SystemState :=
  { s with logs := (⟨now, message⟩ :: s.logs).take 100 }

/-- `broadcastSensorData` (server.js lines 264-274), recorded as its SSE
event type. -/
def broadcastSensorData (s : SystemState) : SystemState :=
  { s with broadcasts := "sensorData" :: s.broadcasts }

/-- `broadcastMotorStatus` (server.js lines 276-283). -/
def broadcastMotorStatus (s : SystemState) : SystemState :=
  { s with broadcasts := "motorStatus" :: s.broadcasts }

/-- `broadcastStatusUpdate` (server.js lines 285-295). -/
def broadcastStatusUpdate (s : SystemState) : SystemState :=
  { s with broadcasts := "statusUpdate" :: s.broadcasts }

/-- `publishMQTT` (server.js lines 342-355): when the transport is marked
connected, hand the message to the MQTT client and log success; when it
is not, only append the log entry "Cannot publish: MQTT not connected".
Nothing is returned to the caller in either branch and no retry is
scheduled. -/
def publishMQTT (now : Nat) (topic message : String) (s : SystemState) : SystemState :=
  if s.mqttConnected then
    addLog now ("Published to " ++ topic ++ ": " ++ message)
      { s with published := (topic, message) :: s.published }
  else
    addLog now "Cannot publish: MQTT not connected" s

/-- `handleMQTTMessage` (server.js lines 122-198): the four-topic switch.
For the sensor topics the payload goes through `parseFloat` and a NaN
result only appends an "Invalid ... value received" log entry; for
`agri/motor/status` the payload is compared with the string "ON"
directly; for `agri/device/status` the payload goes through `JSON.parse`
inside try/catch, modelled by `parseStatusField`. -/
def handleMQTTMessage (now : Nat) (topic payload : String) (s : SystemState) : SystemState :=
  if topic = "agri/sensors/temperature" then
    match jsParseFloat payload with
    | some t =>
      broadcastSensorData (addLog now ("Temperature updated: " ++ payload ++ "°C")
        { s with
          sensorData := { s.sensorData with temperature := t, lastUpdated := now }
          lastSensorDataTime := some now
          deviceActive := true })
    | none => addLog now ("Invalid temperature value received: " ++ payload) s
  else if topic = "agri/sensors/humidity" then
    match jsParseFloat payload with
    | some h =>
      broadcastSensorData (addLog now ("Humidity updated: " ++ payload ++ "%")
        { s with
          sensorData := { s.sensorData with humidity := h, lastUpdated := now }
          lastSensorDataTime := some now
          deviceActive := true })
    | none => addLog now ("Invalid humidity value received: " ++ payload) s
  else if topic = "agri/motor/status" then
    broadcastMotorStatus (addLog now ("Motor status: " ++ payload)
      { s with motorState := payload == "ON" })
  else if topic = "agri/device/status" then
    match parseStatusField payload with
    | some st =>
      let s1 :=
        if st = "online" then
          addLog now "Device came online"
            { s with deviceActive := true, lastSensorDataTime := some now }
        else if st = "offline" then
          addLog now "Device went offline"
            { s with deviceActive := false, lastSensorDataTime := none }
        else s
      broadcastStatusUpdate { s1 with mqttConnected := s1.deviceActive }
    | none => addLog now "Error parsing device status" s
  else addLog now ("Unhandled MQTT message on topic: " ++ topic) s

/-- One pass of the device activity monitor (server.js lines 202-219,
`setInterval` body run every 5 s): when sensor data has been seen, is
older than the 15000 ms timeout, and the device is still marked active,
mark it inactive and broadcast one status update. The second component
counts the offline broadcasts this tick emitted (0 or 1). -/
def deviceActivityTick (now : Nat) (s : SystemState) : SystemState × Nat :=
  match s.lastSensorDataTime with
  | some t =>
    if 15000 < now - t ∧ s.deviceActive = true then
      (broadcastStatusUpdate
        (addLog now "Device went offline - no sensor data received"
          { s with deviceActive := false, mqttConnected := false }), 1)
    else (s, 0)
  | none => (s, 0)

/-- Run the activity monitor at each tick time in order, summing the
offline broadcasts emitted. -/
def runMonitor (times : List Nat) (s : SystemState) : SystemState × Nat :=
  times.foldl (fun acc now =>
    let r := deviceActivityTick now acc.1
    (r.1, acc.2 + r.2)) (s, 0)

/-- Result of an HTTP route, restricted to what the claims observe. -/
inductive ApiResult where
  | ok (success : Bool) (motorState : Bool)
  | badRequest
deriving DecidableEq, Repr

/-- `POST /api/motor/control` (server.js lines 631-654): validate the
action, publish the command via `publishMQTT`, set `motorState` from the
action string, log, and respond `success: true` with the new state. -/
def motorControl (now : Nat) (action : String) (s : SystemState) : ApiResult × SystemState :=
  if action = "on" ∨ action = "off" then
    let command := if action = "on" then "ON" else "OFF"
    let s1 := publishMQTT now "agri/motor/control" command s
    let s2 := { s1 with motorState := action == "on" }
    let s3 := addLog now ("Motor " ++ action ++ " command sent") s2
    (.ok true s2.motorState, s3)
  else (.badRequest, s)

/-- `saveSchedules` (server.js lines 358-366): one synchronous
`fs.writeFileSync` of the whole schedule list, then a log entry. Each
call is one flush; there is no debouncing. -/
def saveSchedules (now : Nat) (s : SystemState) : SystemState :=
  addLog now "Schedules saved to file"
    { s with savedSnapshots := s.schedules :: s.savedSnapshots }

/-- `setupScheduleCronJobs` (server.js lines 384-413): drop every existing
cron task and rebuild one task per active schedule. -/
def setupScheduleCronJobs (s : SystemState) : SystemState :=
  { s with scheduleTimers := (s.schedules.filter (fun x => x.active)).map (fun x => x.id) }

/-- Result of a schedule mutation route. -/
inductive ScheduleApiResult where
  | created (sched : ServerSchedule)
  | deleted
  | badRequest
  | notFound
deriving DecidableEq, Repr

/-- `POST /api/schedules` (server.js lines 680-716): validate, append the
new schedule, flush via `saveSchedules`, rebuild cron jobs, log, respond.
The `id` is `Date.now()`, modelled by `now`. -/
def postSchedule (now : Nat) (time action : String) (duration : Option Nat)
    (s : SystemState) : ScheduleApiResult × SystemState :=
  if time = "" ∨ action = "" then (.badRequest, s)
  else if action ≠ "on" ∧ action ≠ "off" then (.badRequest, s)
  else
    let sched : ServerSchedule := ⟨now, time, action, duration.getD 0, true⟩
    let s1 := { s with schedules := s.schedules ++ [sched] }
    let s2 := setupScheduleCronJobs (saveSchedules now s1)
    (.created sched, addLog now ("Schedule added: " ++ action ++ " at " ++ time) s2)

/-- `DELETE /api/schedules/:id` (server.js lines 718-738): filter the list;
if anything was removed, flush, rebuild cron jobs, log; else 404. -/
def deleteSchedule (now id : Nat) (s : SystemState) : ScheduleApiResult × SystemState :=
  let remaining := s.schedules.filter (fun x => x.id ≠ id)
  if remaining.length < s.schedules.length then
    (.deleted,
      addLog now "Schedule deleted"
        (setupScheduleCronJobs (saveSchedules now { s with schedules := remaining })))
  else (.notFound, s)

end ServerState

section IrrigationSessions

/-- The transient irrigation session value built by
`handleIrrigationStateChange` (irrigation-patch.js lines 9-14). -/
structure IrrSession where
  startTime : Nat
  source : String
  scheduleId : Option Nat
deriving DecidableEq, Repr

/-- A completed irrigation history record produced when a session ends. -/
structure IrrEvent where
  startTime : Nat
  endTime : Nat
  durationMinutes : Int
  source : String
deriving DecidableEq, Repr

/-- The session-tracking state read by irrigation-patch.js: the
`systemState.activeIrrigationSession` slot written by the patch, the
`sessionManager.activeSession` slot owned by the session manager, and the
history log (newest first). -/
structure IrrState where
  patchSession : Option IrrSession
  mgrSession : Option IrrSession
  history : List IrrEvent
deriving DecidableEq, Repr

/-- Modelled from the spec: the session manager `end()` operation is not
under src/ (irrigation-patch.js only calls it). Spec section 4.2: on
`end()` the manager computes `durationMinutes = round((now - startedAt) /
60s)`, builds an IrrigationEvent, prepends it to history, and leaves the
Active state. -/
def sessionManagerEnd (now : Nat) (st : IrrState) : IrrState :=
  match st.mgrSession with
  | some sess =>
    { st with
      mgrSession := none
      history :=
        ⟨sess.startTime, now,
          jsMathRound (((now : ℚ) - (sess.startTime : ℚ)) / 60000), sess.source⟩ :: st.history }
  | none => st

/-- `handleIrrigationStateChange` (irrigation-patch.js lines 5-24): on an
ON transition, start tracking a session only when no session is active in
either slot; on an OFF transition, complete the session through the
session manager only. An ON transition that arrives while a session is
active changes nothing. -/
def handleIrrigationStateChange (now : Nat) (isOn : Bool) (st : IrrState) : IrrState :=
  if isOn then
    if st.patchSession = none ∧ st.mgrSession = none then
      { st with patchSession := some ⟨now, "manual", none⟩ }
    else st
  else
    if st.mgrSession.isSome then sessionManagerEnd now st else st

/-- Number of live session values in the state. -/
def sessionCount (st : IrrState) : Nat :=
  (if st.patchSession.isSome then 1 else 0) + (if st.mgrSession.isSome then 1 else 0)

/-- The empty initial session state. -/
def initIrrState : IrrState := ⟨none, none, []⟩

/-- Fold a sequence of timed ON/OFF triggers through the state-change
handler, starting from the empty state. -/
def runTriggers (ts : List (Nat × Bool)) : IrrState :=
  ts.foldl (fun st p => handleIrrigationStateChange p.1 p.2 st) initIrrState

end IrrigationSessions

/-- Spec-modelled interpretation of an actuator-confirmation payload,
following the spec words: "first attempts structured (tagged) parsing of
the payload; on parse failure it falls back to a plain two-valued string
contract (ON/OFF)". Used only to compare against the handler actually in
the source. -/
def specActuatorMotorState (payload : String) : Bool :=
  match parseStatusField payload with
  | some st => st == "ON"
  | none => payload == "ON"

/-- A small concrete server state: MQTT disconnected, motor off, empty
journals. -/
def demoState : SystemState :=
  ⟨false, false, ⟨0, 0, 0⟩, [], [], none, false, [], [], [], []⟩

/-- A concrete server state that has seen sensor data at time 0 and is
marked active. -/
def staleDemoState : SystemState :=
  ⟨false, false, ⟨0, 0, 0⟩, [], [], some 0, true, [], [], [], []⟩

/-- A concrete session state with one active session in the patch slot. -/
def activeSessionDemo : IrrState := ⟨some ⟨0, "manual", none⟩, none, []⟩

section ClaimC9

/-- C9: for a history document whose duration field was not recorded
(absent or zero) and whose session ran from time `T` to `T + d` seconds,
the duration reported by the model is `round(d / 60)` minutes, using
JavaScript rounding. -/
theorem duration_rounding (d : IrrigationHistoryDoc) (T : Int) (dsec : Nat)
    (hdur : d.duration = none ∨ d.duration = some 0)
    (hs : d.startTime = some T)
    (he : d.endTime = some (T + dsec * 1000)) :
    calculatedDuration d = jsMathRound ((dsec : ℚ) / 60) := by
  have htr : jsTruthyInt d.duration = false := by
    rcases hdur with h | h <;> simp [jsTruthyInt, h]
  rw [calculatedDuration, htr]
  simp only [Bool.false_eq_true, if_false, hs, he]
  unfold jsMathRound
  congr 1
  have : ((T + (dsec : Int) * 1000 - T : Int) : ℚ) = (dsec : ℚ) * 1000 := by
    push_cast
    ring
  rw [this]
  ring

/-- C9 witness: a session of 1830 seconds yields 31 minutes. -/
theorem duration_rounding_witness :
    calculatedDuration ⟨none, some 0, some 1830000⟩ = 31 := by
  have h := duration_rounding ⟨none, some 0, some 1830000⟩ 0 1830 (Or.inl rfl) rfl (by norm_num)
  rw [h]
  norm_num [jsMathRound]

end ClaimC9

section ClaimC6

/-- C6: marking a weekly schedule executed deactivates it and stamps
`lastExecuted`, and after that `shouldExecute` is false at every later
tick (in particular at the same matching time), for every model of the
date conversion. -/
theorem weekly_deactivation_no_refire (sched : MongoSchedule) (now : JsInstant)
    (hweek : sched.frequency = "weekly") :
    (markExecuted sched now).active = false ∧
    (markExecuted sched now).lastExecuted = some now ∧
    ∀ (toDS : String → String) (later : JsInstant),
      shouldExecute toDS (markExecuted sched now) later = false := by
  refine ⟨by simp [markExecuted, hweek], by simp [markExecuted], ?_⟩
  intro toDS later
  simp [shouldExecute, markExecuted, hweek]

/-- A concrete weekly schedule whose stored date matches the demo day. -/
def weeklySchedDemo : MongoSchedule :=
  ⟨"06:00", "on", 10, "weekly", some "Mon Jan 06 2025", true, none⟩

/-- C6 witness: the demo weekly schedule fires at its matching instant,
and after `markExecuted` it is inactive and no longer fires at the same
instant. -/
theorem weekly_deactivation_witness :
    shouldExecute id weeklySchedDemo ⟨"06:00", "Mon Jan 06 2025"⟩ = true ∧
    (markExecuted weeklySchedDemo ⟨"06:00", "Mon Jan 06 2025"⟩).active = false ∧
    shouldExecute id (markExecuted weeklySchedDemo ⟨"06:00", "Mon Jan 06 2025"⟩)
      ⟨"06:00", "Mon Jan 06 2025"⟩ = false := by
  have h := weekly_deactivation_no_refire weeklySchedDemo ⟨"06:00", "Mon Jan 06 2025"⟩ rfl
  exact ⟨by decide, h.1, h.2.2 id ⟨"06:00", "Mon Jan 06 2025"⟩⟩

end ClaimC6

section ClaimC3

/-- C3 counterexample: on the actuator-confirmation topic the handler in
the source performs no structured parsing at all; a JSON-tagged ON
payload is treated as not equal to the bare string "ON" and the motor is
recorded as off, while the spec-described parse-then-fallback contract
would record it as on. -/
theorem motor_status_counterexample :
    (handleMQTTMessage 0 "agri/motor/status" "\x7b\"status\":\"ON\"\x7d" demoState).motorState
      = false ∧
    specActuatorMotorState "\x7b\"status\":\"ON\"\x7d" = true := by decide

/-- C3 amended: the handler interprets every actuator-status payload under
the plain two-valued contract only, setting the motor state to the bare
string comparison `payload == "ON"`, with no structured parsing attempt
before it. -/
theorem motor_status_plain_compare (now : Nat) (p : String) (s : SystemState) :
    (handleMQTTMessage now "agri/motor/status" p s).motorState = (p == "ON") := by
  simp [handleMQTTMessage, broadcastMotorStatus, addLog]

end ClaimC3

section ClaimC4

/-- C4 counterexample: a motor command issued while the transport is
disconnected still answers the caller with a success result carrying the
new motor state; no NotConnected condition reaches the caller, and no
message is handed to the MQTT client. -/
theorem publish_disconnected_counterexample :
    demoState.mqttConnected = false ∧
    (motorControl 0 "on" demoState).1 = .ok true true ∧
    (motorControl 0 "on" demoState).2.published = [] := by decide

/-- Helper: the second element of a freshly double-prepended log survives
the 100-entry cap. -/
theorem mem_take100_second (a b : LogEntry) (l : List LogEntry) :
    b ∈ (a :: (b :: l).take 100).take 100 := by
  have h1 : (b :: l).take 100 = b :: l.take 99 := List.take_succ_cons
  have h2 : (a :: (b :: l.take 99)).take 100 = a :: (b :: l.take 99).take 99 :=
    List.take_succ_cons
  have h3 : (b :: l.take 99).take 99 = b :: (l.take 99).take 98 := List.take_succ_cons
  rw [h1, h2, h3]
  exact List.mem_cons_of_mem _ (List.mem_cons_self _ _)

/-- C4 amended: an actuation command issued while the transport is
disconnected publishes nothing and is not retried (the publish journal is
unchanged), the failure is only recorded as the log entry "Cannot
publish: MQTT not connected", and the caller receives a success response,
not a NotConnected condition. -/
theorem publish_disconnected_logged_only (now : Nat) (action : String) (s : SystemState)
    (hdis : s.mqttConnected = false) (hact : action = "on" ∨ action = "off") :
    (motorControl now action s).2.published = s.published ∧
    (motorControl now action s).1 = .ok true (action == "on") ∧
    ∃ e ∈ (motorControl now action s).2.logs,
      e.message = "Cannot publish: MQTT not connected" := by
  rcases hact with h | h <;> subst h <;>
    refine ⟨by simp [motorControl, publishMQTT, hdis, addLog], by simp [motorControl, publishMQTT, hdis, addLog], ?_⟩ <;>
    · refine ⟨⟨now, "Cannot publish: MQTT not connected"⟩, ?_, rfl⟩
      simp only [motorControl, publishMQTT, hdis, addLog]
      simp only [Bool.false_eq_true, if_false, if_true, if_pos, or_self, String.reduceEq]
      exact mem_take100_second _ _ _

/-- C4 witness: the amended behaviour at a concrete disconnected state. -/
theorem publish_disconnected_witness :
    (motorControl 5 "off" demoState).2.published = demoState.published ∧
    (motorControl 5 "off" demoState).1 = .ok true ("off" == "on") ∧
    ∃ e ∈ (motorControl 5 "off" demoState).2.logs,
      e.message = "Cannot publish: MQTT not connected" :=
  publish_disconnected_logged_only 5 "off" demoState rfl (Or.inr rfl)

end ClaimC4

section ClaimC10

/-- C10: every valid motor-control request made while MQTT is disconnected
still sets the in-memory motor state from the requested action and
responds with success, even though no command was published. -/
theorem motor_control_success_when_disconnected (now : Nat) (action : String)
    (s : SystemState) (hact : action = "on" ∨ action = "off")
    (hdis : s.mqttConnected = false) :
    (motorControl now action s).1 = .ok true (action == "on") ∧
    (motorControl now action s).2.motorState = (action == "on") ∧
    (motorControl now action s).2.published = s.published := by
  rcases hact with h | h <;> subst h <;>
    simp [motorControl, publishMQTT, hdis, addLog]

/-- C10 witness: turning the motor on while disconnected. -/
theorem motor_control_disconnected_witness :
    (motorControl 0 "on" demoState).1 = .ok true ("on" == "on") ∧
    (motorControl 0 "on" demoState).2.motorState = ("on" == "on") ∧
    (motorControl 0 "on" demoState).2.published = demoState.published :=
  motor_control_success_when_disconnected 0 "on" demoState (Or.inl rfl) rfl

end ClaimC10

section ClaimC1

/-- Helper: one trigger through the state-change handler preserves the
at-most-one-session bound. -/
theorem sessionCount_step_le (st : IrrState) (now : Nat) (b : Bool)
    (h : sessionCount st ≤ 1) :
    sessionCount (handleIrrigationStateChange now b st) ≤ 1 := by
  cases b with
  | true =>
    by_cases hb : st.patchSession = none ∧ st.mgrSession = none
    · simp [handleIrrigationStateChange, hb.1, hb.2, sessionCount]
    · simpa [handleIrrigationStateChange, hb] using h
  | false =>
    by_cases hm : st.mgrSession.isSome
    · obtain ⟨sess, hs⟩ := Option.isSome_iff_exists.mp hm
      have hp : (if st.patchSession.isSome = true then 1 else 0) ≤ 1 := by
        split <;> simp
      simpa [handleIrrigationStateChange, hm, sessionManagerEnd, hs, sessionCount] using hp
    · simpa [handleIrrigationStateChange, hm] using h

/-- C1 counterexample: an ON trigger that arrives while a session is
already active leaves the state exactly as it was: the prior session is
not force-ended, no history record is produced, and no new session with
the trigger time begins. -/
theorem irrigation_overlap_counterexample :
    handleIrrigationStateChange 600000 true activeSessionDemo = activeSessionDemo ∧
    (handleIrrigationStateChange 600000 true activeSessionDemo).history = [] := by decide

/-- C1 amended: along every sequence of start/end triggers from the empty
state there is at most one active irrigation session, and a start trigger
that arrives while any session is active is ignored (the state, the prior
session included, is unchanged; no history record is produced). -/
theorem irrigation_single_session :
    (∀ ts : List (Nat × Bool), sessionCount (runTriggers ts) ≤ 1) ∧
    (∀ (now : Nat) (st : IrrState), 1 ≤ sessionCount st →
      handleIrrigationStateChange now true st = st) := by
  constructor
  · intro ts
    have main : ∀ (l : List (Nat × Bool)) (st : IrrState), sessionCount st ≤ 1 →
        sessionCount (l.foldl (fun st p => handleIrrigationStateChange p.1 p.2 st) st) ≤ 1 := by
      intro l
      induction l with
      | nil => intro st h; exact h
      | cons p ps ih =>
        intro st h
        exact ih _ (sessionCount_step_le st p.1 p.2 h)
    exact main ts initIrrState (by decide)
  · intro now st h
    have hb : ¬(st.patchSession = none ∧ st.mgrSession = none) := by
      rintro ⟨h1, h2⟩
      simp [sessionCount, h1, h2] at h
    simp [handleIrrigationStateChange, hb]

/-- C1 witness: a concrete trigger burst respects the bound, and a start
against the concrete active state is ignored. -/
theorem irrigation_single_session_witness :
    sessionCount (runTriggers [(0, true), (1, true), (2, false)]) ≤ 1 ∧
    handleIrrigationStateChange 600001 true activeSessionDemo = activeSessionDemo :=
  ⟨irrigation_single_session.1 [(0, true), (1, true), (2, false)],
   irrigation_single_session.2 600001 activeSessionDemo (by decide)⟩

end ClaimC1

section ClaimC5

/-- One schedule mutation as issued by the HTTP routes: a creation via
`POST /api/schedules` (request time, HH:MM field, action field) or a
deletion via `DELETE /api/schedules/:id`. -/
inductive ScheduleMutation where
  | create (now : Nat) (time action : String)
  | remove (now : Nat) (id : Nat)
deriving DecidableEq, Repr

/-- Apply one mutation to the server state through its route handler. -/
def applyScheduleMutation (m : ScheduleMutation) (s : SystemState) : SystemState :=
  match m with
  | .create now time action => (postSchedule now time action none s).2
  | .remove now id => (deleteSchedule now id s).2

/-- Run a burst of schedule mutations, creations and deletions mixed, in
order. -/
def runScheduleMutations (ms : List ScheduleMutation) (s : SystemState) : SystemState :=
  ms.foldl (fun st m => applyScheduleMutation m st) s

/-- A mutation succeeds, and so reaches its flush, in a given state: a
creation needs the validated fields, a deletion needs a schedule with the
requested id to exist (else the route answers 404 without flushing). -/
def mutationSucceeds (m : ScheduleMutation) (s : SystemState) : Bool :=
  match m with
  | .create _ time action => time != "" && (action == "on" || action == "off")
  | .remove _ id => s.schedules.any (fun x => x.id == id)

/-- Every mutation of the burst succeeds in the state it is applied to. -/
def validBurst : List ScheduleMutation → SystemState → Bool
  | [], _ => true
  | m :: ms, s => mutationSucceeds m s && validBurst ms (applyScheduleMutation m s)

/-- Helper: removing an id that is present strictly shortens the list. -/
theorem filter_ne_length_lt (id : Nat) (l : List ServerSchedule)
    (h : ∃ x ∈ l, x.id = id) :
    (l.filter (fun x => x.id ≠ id)).length < l.length := by
  induction l with
  | nil => simp at h
  | cons a as ih =>
    by_cases ha : a.id = id
    · have hle : (as.filter (fun x => x.id ≠ id)).length ≤ as.length :=
        List.length_filter_le _ _
      simp only [ne_eq] at hle
      simp only [List.filter_cons, ha, ne_eq, not_true_eq_false, decide_False,
        Bool.false_eq_true, if_false, List.length_cons]
      omega
    · rcases h with ⟨x, hx, hxid⟩
      rcases List.mem_cons.mp hx with rfl | hxas
      · exact absurd hxid ha
      · have hrec := ih ⟨x, hxas, hxid⟩
        simp only [ne_eq] at hrec
        simp only [List.filter_cons, ne_eq, ha, not_false_eq_true, decide_True,
          if_true, List.length_cons]
        omega

/-- Helper: one successful mutation, creation or deletion alike, performs
exactly one persistence flush. -/
theorem applyScheduleMutation_flush (m : ScheduleMutation) (s : SystemState)
    (h : mutationSucceeds m s = true) :
    (applyScheduleMutation m s).savedSnapshots.length = s.savedSnapshots.length + 1 := by
  cases m with
  | create now time action =>
    simp only [mutationSucceeds, Bool.and_eq_true, Bool.or_eq_true, bne_iff_ne,
      beq_iff_eq] at h
    rcases h.2 with h2 | h2 <;>
      simp [applyScheduleMutation, postSchedule, h.1, h2, saveSchedules,
        setupScheduleCronJobs, addLog]
  | remove now id =>
    simp only [mutationSucceeds, List.any_eq_true, beq_iff_eq] at h
    have hlt := filter_ne_length_lt id s.schedules h
    simp only [ne_eq, decide_not] at hlt
    simp [applyScheduleMutation, deleteSchedule, hlt, saveSchedules,
      setupScheduleCronJobs, addLog]

/-- C5 counterexample: two mutations arriving back to back, one creation
followed by one deletion, perform two persistence flushes, not one
coalesced flush. -/
theorem schedule_flush_counterexample :
    ((deleteSchedule 2 1
        (postSchedule 1 "06:00" "on" (some 10) demoState).2).2).savedSnapshots.length = 2 ∧
    (2 : Nat) ≠ 1 := by decide

/-- C5 amended: schedule mutations, creations and deletions alike, are
flushed synchronously one by one: a burst of N mutations that all succeed
performs exactly N flushes (the flush journal grows by the length of the
burst), with no debounce coalescing. -/
theorem schedule_mutation_flush_per_mutation (ms : List ScheduleMutation) (s : SystemState)
    (hvalid : validBurst ms s = true) :
    (runScheduleMutations ms s).savedSnapshots.length
      = s.savedSnapshots.length + ms.length := by
  revert s
  induction ms with
  | nil =>
    intro s _
    simp [runScheduleMutations]
  | cons m rest ih =>
    intro s hvalid
    simp only [validBurst, Bool.and_eq_true] at hvalid
    have hstep := applyScheduleMutation_flush m s hvalid.1
    have hfold : runScheduleMutations (m :: rest) s
        = runScheduleMutations rest (applyScheduleMutation m s) := rfl
    rw [hfold, ih _ hvalid.2, hstep]
    simp only [List.length_cons]
    omega

/-- C5 witness: a concrete burst of two creations followed by one
deletion grows the flush journal by three. -/
theorem schedule_flush_witness :
    (runScheduleMutations
      [.create 1 "06:00" "on", .create 2 "07:00" "off", .remove 3 1]
      demoState).savedSnapshots.length = demoState.savedSnapshots.length + 3 :=
  schedule_mutation_flush_per_mutation
    [.create 1 "06:00" "on", .create 2 "07:00" "off", .remove 3 1]
    demoState (by decide)

end ClaimC5

section ClaimC7

/-- C7: a payload that does not parse as a number on a numeric sensor
topic is dropped: the stored reading, the broadcast journal, the device
activity markers are unchanged, and the only effect is one appended log
entry. The handler is a total function, so no exception propagates. -/
theorem invalid_sensor_payload_dropped (now : Nat) (p : String) (s : SystemState)
    (hp : jsParseFloat p = none) :
    (handleMQTTMessage now "agri/sensors/temperature" p s).sensorData = s.sensorData ∧
    (handleMQTTMessage now "agri/sensors/temperature" p s).broadcasts = s.broadcasts ∧
    (handleMQTTMessage now "agri/sensors/temperature" p s).deviceActive = s.deviceActive ∧
    (handleMQTTMessage now "agri/sensors/temperature" p s).lastSensorDataTime
      = s.lastSensorDataTime ∧
    (handleMQTTMessage now "agri/sensors/temperature" p s).logs
      = (⟨now, "Invalid temperature value received: " ++ p⟩ :: s.logs).take 100 ∧
    (handleMQTTMessage now "agri/sensors/humidity" p s).sensorData = s.sensorData ∧
    (handleMQTTMessage now "agri/sensors/humidity" p s).logs
      = (⟨now, "Invalid humidity value received: " ++ p⟩ :: s.logs).take 100 := by
  simp [handleMQTTMessage, hp, addLog]

/-- C7 witness: a concrete garbled payload is dropped with one log entry. -/
theorem invalid_sensor_payload_witness :
    (handleMQTTMessage 7 "agri/sensors/temperature" "garbage" demoState).sensorData
      = demoState.sensorData ∧
    (handleMQTTMessage 7 "agri/sensors/temperature" "garbage" demoState).logs
      = (⟨7, "Invalid temperature value received: " ++ "garbage"⟩ :: demoState.logs).take 100 :=
  ⟨(invalid_sensor_payload_dropped 7 "garbage" demoState (by decide)).1,
   (invalid_sensor_payload_dropped 7 "garbage" demoState (by decide)).2.2.2.2.1⟩

end ClaimC7

section ClaimC8

/-- Helper: a monitor tick on an inactive device changes nothing and
emits nothing. -/
theorem deviceActivityTick_inactive (now : Nat) (s : SystemState)
    (h : s.deviceActive = false) :
    deviceActivityTick now s = (s, 0) := by
  cases hl : s.lastSensorDataTime <;> simp [deviceActivityTick, hl, h]

/-- Helper: folding monitor ticks over an inactive device emits nothing. -/
theorem runMonitor_fold_inactive (l : List Nat) (st : SystemState) (c : Nat)
    (h : st.deviceActive = false) :
    l.foldl (fun acc now =>
      let r := deviceActivityTick now acc.1
      (r.1, acc.2 + r.2)) (st, c) = (st, c) := by
  induction l with
  | nil => rfl
  | cons n ns ih =>
    rw [List.foldl_cons]
    simp only [deviceActivityTick_inactive n st h]
    simpa using ih

/-- C8: when telemetry stops at time `t0` while the device is active,
any nonempty run of monitor ticks that all lie beyond the 15 s staleness
threshold emits exactly one offline status broadcast in total: the first
tick emits it and flips the device inactive, every later tick emits
nothing. -/
theorem staleness_edge_trigger_once (s : SystemState) (t0 : Nat) (times : List Nat)
    (hact : s.deviceActive = true) (hlast : s.lastSensorDataTime = some t0)
    (hne : times ≠ []) (hstale : ∀ n ∈ times, 15000 < n - t0) :
    (runMonitor times s).2 = 1 := by
  obtain ⟨n, rest, rfl⟩ := List.exists_cons_of_ne_nil hne
  have hn := hstale n (List.mem_cons_self _ _)
  have h1 : deviceActivityTick n s =
      (broadcastStatusUpdate
        (addLog n "Device went offline - no sensor data received"
          { s with deviceActive := false, mqttConnected := false }), 1) := by
    simp [deviceActivityTick, hlast, hn, hact]
  have hafter : (broadcastStatusUpdate
      (addLog n "Device went offline - no sensor data received"
        { s with deviceActive := false, mqttConnected := false })).deviceActive = false := rfl
  rw [runMonitor, List.foldl_cons]
  simp only [h1]
  rw [runMonitor_fold_inactive rest _ _ hafter]

/-- C8 witness: with telemetry last seen at time 0, two ticks past the
threshold emit exactly one offline broadcast. -/
theorem staleness_edge_trigger_witness :
    (runMonitor [20000, 25000] staleDemoState).2 = 1 :=
  staleness_edge_trigger_once staleDemoState 0 [20000, 25000] rfl rfl (by decide) (by decide)

end ClaimC8

section ClaimC2

/-- Helper: inserting a document whose timestamp dominates the list lands
at the end. -/
theorem insertByCreatedAt_append (e : HistoryDoc) (l : List HistoryDoc)
    (h : ∀ x ∈ l, x.createdAt ≤ e.createdAt) :
    insertByCreatedAt e l = l ++ [e] := by
  induction l with
  | nil => rfl
  | cons x xs ih =>
    have hx := h x (List.mem_cons_self _ _)
    simp [insertByCreatedAt, hx, ih (fun y hy => h y (List.mem_cons_of_mem _ hy))]

/-- Helper: ascending sort of a strictly newest-first list is its reverse. -/
theorem sortByCreatedAtAsc_of_desc (l : List HistoryDoc)
    (h : l.Pairwise (fun a b => b.createdAt < a.createdAt)) :
    sortByCreatedAtAsc l = l.reverse := by
  induction l with
  | nil => rfl
  | cons x xs ih =>
    rw [sortByCreatedAtAsc, ih (List.pairwise_cons.mp h).2]
    rw [insertByCreatedAt_append x xs.reverse
      (fun y hy => le_of_lt ((List.pairwise_cons.mp h).1 y (List.mem_reverse.mp hy)))]
    rw [List.reverse_cons]

/-- C2: a newest-first history log of 501 documents (the 500 retained ones
plus one appended newer document) with strictly decreasing creation times
and distinct ids is trimmed by the retention rule to exactly the first
500 documents: the single oldest document is deleted and every newer one
is retained in its newest-first position. -/
theorem history_cap_501_keeps_500 (db : List HistoryDoc)
    (hlen : db.length = 501)
    (hdesc : db.Chain' (fun a b => b.createdAt < a.createdAt))
    (hids : (db.map (fun e => e.docId)).Nodup) :
    (cleanOldRecords 500 db).1 = db.dropLast ∧
    (cleanOldRecords 500 db).1.length = 500 ∧
    (cleanOldRecords 500 db).2 = 1 := by
  have hne : db ≠ [] := by
    intro h
    rw [h] at hlen
    simp at hlen
  obtain ⟨L, z, rfl⟩ := (List.eq_nil_or_concat' db).resolve_left hne
  have hLlen : L.length = 500 := by
    simp at hlen
    omega
  have hpair : (L ++ [z]).Pairwise (fun a b => b.createdAt < a.createdAt) := by
    have : IsTrans HistoryDoc (fun a b => b.createdAt < a.createdAt) :=
      ⟨fun _ _ _ h1 h2 => lt_trans h2 h1⟩
    exact List.chain'_iff_pairwise.mp hdesc
  have hsorted : sortByCreatedAtAsc (L ++ [z]) = z :: L.reverse := by
    rw [sortByCreatedAtAsc_of_desc _ hpair]
    simp
  have hznotin : ∀ x ∈ L, x.docId ≠ z.docId := by
    intro x hx heq
    rw [List.map_append, List.nodup_append] at hids
    exact hids.2.2 (List.mem_map_of_mem _ hx) (by simp [heq])
  have htotal : ¬((L ++ [z]).length ≤ 500) := by
    simp [hLlen]
  have hdel : (L ++ [z]).length - 500 = 1 := by
    simp [hLlen]
  have hfilter : (L ++ [z]).filter
      (fun e => ! ([z.docId].contains e.docId)) = L := by
    rw [List.filter_append]
    have h1 : L.filter (fun e => ! ([z.docId].contains e.docId)) = L :=
      List.filter_eq_self.mpr (fun x hx => by
        simp [List.contains, hznotin x hx])
    have h2 : [z].filter (fun e => ! ([z.docId].contains e.docId)) = [] := by
      simp [List.contains]
    rw [h1, h2, List.append_nil]
  refine ⟨?_, ?_, ?_⟩
  · rw [cleanOldRecords]
    simp only [htotal, if_false, hdel, hsorted]
    simp only [List.take_succ_cons, List.take_zero, List.map_cons, List.map_nil]
    rw [hfilter, List.dropLast_concat]
  · rw [cleanOldRecords]
    simp only [htotal, if_false, hdel, hsorted]
    simp only [List.take_succ_cons, List.take_zero, List.map_cons, List.map_nil]
    rw [hfilter, hLlen]
  · rw [cleanOldRecords]
    simp only [htotal, if_false, hdel]

/-- A concrete 501-document log: ids 0..500, creation times strictly
decreasing from 501 down to 1 (newest first). -/
def c2DemoDb : List HistoryDoc := (List.range 501).map (fun i => ⟨i, 501 - i⟩)

/-- C2 witness: trimming the concrete 501-document log keeps exactly 500
documents and deletes one. -/
theorem history_cap_witness :
    (cleanOldRecords 500 c2DemoDb).1 = c2DemoDb.dropLast ∧
    (cleanOldRecords 500 c2DemoDb).1.length = 500 :=
  have h := history_cap_501_keeps_500 c2DemoDb
    (by simp [c2DemoDb])
    (by
      simp only [c2DemoDb]
      rw [List.chain'_map]
      have h501 : (501 : Nat) = 500 + 1 := rfl
      rw [h501, List.chain'_range_succ]
      intro m hm
      show 501 - (m + 1) < 501 - m
      omega)
    (by
      simp only [c2DemoDb, List.map_map]
      have hcomp : ((fun e : HistoryDoc => e.docId) ∘ fun i => (⟨i, 501 - i⟩ : HistoryDoc))
          = fun i => i := rfl
      rw [hcomp]
      simpa using List.nodup_range 501)
  ⟨h.1, h.2.1⟩

end ClaimC2
